import Mathlib

/-!
# ompl_planner.cpp : request dispatch and explored-state visualization

A shallow embedding of `ompl_interface_ros/src/ompl_planner.cpp`.

* The planning engine (`ompl_interface_`), the kinematic state library and the
  planning-scene monitor are external; they are taken as parameters
  (`OMPLInterface`, `KinematicStateOps`, and the read oracles of `Service`).
* Member functions that mutate the object become functions on `Service`.
* A lookup that returns a pointer returns an `Option`; dereferencing a null
  pointer ends the call with `Fault.nullPointerDereference`.
* Floating-point fields are only ever assigned, never computed with; they are
  modelled by rationals holding the value of the literal.
-/

namespace OmplPlanner

/-! ## Constants of the translation unit -/

def PLANNER_NODE_NAME : String := "ompl_planning"
def PLANNER_SERVICE_NAME : String := "plan_kinematic_path"
def BENCHMARK_SERVICE_NAME : String := "benchmark_planning_problem"
def ROBOT_DESCRIPTION : String := "robot_description"

/-! ## Messages -/

/-- Three real coordinates (`Eigen::Vector3d`, `geometry_msgs/Point`, `geometry_msgs/Vector3`). -/
structure Vector3 where
  x : ℚ
  y : ℚ
  z : ℚ
deriving DecidableEq

/-- Message `geometry_msgs/Quaternion`. -/
structure Quaternion where
  x : ℚ
  y : ℚ
  z : ℚ
  w : ℚ
deriving DecidableEq

/-- Message `std_msgs/ColorRGBA`. -/
structure ColorRGBA where
  r : ℚ
  g : ℚ
  b : ℚ
  a : ℚ
deriving DecidableEq

/-- Message `std_msgs/Header` (the fields the program writes). -/
structure Header where
  stamp : Nat
  frame_id : String
deriving DecidableEq

/-- Shapes of `visualization_msgs::Marker`. -/
inductive MarkerType where
  | ARROW
  | CUBE
  | SPHERE
  | CYLINDER
deriving DecidableEq

/-- Actions of `visualization_msgs::Marker`. -/
inductive MarkerAction where
  | ADD
  | DELETE
deriving DecidableEq

/-- Message `geometry_msgs/Pose`. -/
structure Pose where
  position : Vector3
  orientation : Quaternion
deriving DecidableEq

/-- Message `visualization_msgs::Marker` (the fields the program writes). The id is the `int32`
field of the message. -/
structure Marker where
  header : Header
  ns : String
  id : Int
  type : MarkerType
  action : MarkerAction
  pose : Pose
  scale : Vector3
  color : ColorRGBA
  lifetime : ℚ
deriving DecidableEq

/-- Message `visualization_msgs::MarkerArray`. -/
abbrev MarkerArray := List Marker

/-! ## External collaborators -/

/-- How a call can end without returning. -/
inductive Fault where
  | nullPointerDereference
deriving DecidableEq

/-- What the program reads of a planning scene. -/
structure PlanningScene (K : Type) where
  isConfigured : Bool
  getCurrentState : K
  getPlanningFrame : String

/-- What the program reads of a planning configuration: the explored states
`getOMPLSimpleSetup().getPlannerData().states`, the joint model group name, and
`getKMStateSpace().copyToKinematicState`. -/
structure PlanningConfiguration (K C : Type) where
  states : List C
  getJointModelGroupName : String
  copyToKinematicState : K → C → K

/-- The operations of `planning_models::KinematicState` the program calls. The two lookups
return pointers, which may be null. -/
structure KinematicStateOps (K G L : Type) where
  getJointStateGroup : K → String → Option G
  updateLinkTransforms : K → G → K
  getLinkState : K → String → Option L
  getGlobalLinkTransformTranslation : L → Vector3

/-- The operations of `ompl_interface_ros::OMPLInterfaceROS` the program calls, over an engine
state `E`. `solve` and `benchmark` fill the response passed by reference and return a flag. -/
structure OMPLInterface (E K C Req Res BReq BRes : Type) where
  solve : E → PlanningScene K → Req → Res → Bool × Res × E
  benchmark : E → PlanningScene K → BReq → BRes → Bool × BRes × E
  getLastPlanningConfiguration : E → Option (PlanningConfiguration K C)

/-- The object `OMPLPlannerService` with the part of the world it touches. `psm_ n` is the scene
the monitor hands out at its `n`-th read and `clock n` is the value of the `n`-th
`ros::Time::now()`; `pub_markers_` lists the arrays published so far, oldest first. -/
structure Service (E K : Type) where
  ompl_interface_ : E
  psm_ : Nat → PlanningScene K
  sceneReads : Nat
  clock : Nat → Nat
  clockReads : Nat
  pub_markers_ : List MarkerArray
  rosout : List String

variable {E K C G L Req Res BReq BRes : Type}

/-- One call of `psm_.getPlanningScene()`. -/
def getPlanningScene (s : Service E K) : PlanningScene K × Service E K :=
  (s.psm_ s.sceneReads, { s with sceneReads := s.sceneReads + 1 })

/-- One call of `ros::Time::now()`. -/
def timeNow (s : Service E K) : Nat × Service E K :=
  (s.clock s.clockReads, { s with clockReads := s.clockReads + 1 })

/-- The macro `ROS_INFO`. -/
def rosInfo (msg : String) (s : Service E K) : Service E K :=
  { s with rosout := s.rosout ++ [msg] }

/-- The call `pub_markers_.publish(arr)`. -/
def publish (arr : MarkerArray) (s : Service E K) : Service E K :=
  { s with pub_markers_ := s.pub_markers_ ++ [arr] }

/-! ## displayPlannerData -/

/-- The colour set up before the loop (lines 74-78). -/
def color : ColorRGBA := { r := 1, g := 0, b := 0, a := 1 }

/-- Lines 81-83: copy the explored state into the working kinematic state, update the link
transforms of the group, read the translation of the link. Returns the working state as left
by the writes, and the position. -/
def resolveLink (kin : KinematicStateOps K G L) (pc : PlanningConfiguration K C)
    (link_name : String) (kstate : K) (st : C) : Except Fault (K × Vector3) :=
  let kstate1 := pc.copyToKinematicState kstate st
  match kin.getJointStateGroup kstate1 pc.getJointModelGroupName with
  | none => Except.error Fault.nullPointerDereference
  | some g =>
    let kstate2 := kin.updateLinkTransforms kstate1 g
    match kin.getLinkState kstate2 link_name with
    | none => Except.error Fault.nullPointerDereference
    | some ls => Except.ok (kstate2, kin.getGlobalLinkTransformTranslation ls)

/-- The conversion of a `std::size_t` value to `int32`: the value modulo 2^32, read as a signed
number of 32 bits. -/
def toInt32 (n : Nat) : Int :=
  if n % 4294967296 < 2147483648 then ((n % 4294967296 : Nat) : Int)
  else ((n % 4294967296 : Nat) : Int) - 4294967296

/-- Lines 85-98: the marker built in iteration `i`. Line 89, `mk.id = i`, stores the
`std::size_t` index in the `int32` id. -/
def makeMarker (i : Nat) (pos : Vector3) (stamp : Nat) (frame_id : String) : Marker :=
  { header := { stamp := stamp, frame_id := frame_id }
    ns := "planner_data"
    id := toInt32 i
    type := MarkerType.SPHERE
    action := MarkerAction.ADD
    pose := { position := { x := pos.x, y := pos.y, z := pos.z }
              orientation := { x := 0, y := 0, z := 0, w := 1 } }
    scale := { x := 35 / 1000, y := 35 / 1000, z := 35 / 1000 }
    color := color
    lifetime := 10 }

/-- The loop of lines 79-100, from index `i` on: `rest` are the states `pd.states[i..]`, `kstate`
the working kinematic state and `arr` the markers pushed so far. -/
def markerLoop (kin : KinematicStateOps K G L) (pc : PlanningConfiguration K C)
    (link_name : String) :
    Nat → List C → K → MarkerArray → Service E K → Except Fault (MarkerArray × Service E K)
  | _, [], _, arr, s => Except.ok (arr, s)
  | i, st :: rest, kstate, arr, s =>
    match resolveLink kin pc link_name kstate st with
    | Except.error f => Except.error f
    | Except.ok (kstate2, pos) =>
      let (stamp, s1) := timeNow s
      let (scene, s2) := getPlanningScene s1
      let mk := makeMarker i pos stamp scene.getPlanningFrame
      markerLoop kin pc link_name (i + 1) rest kstate2 (arr ++ [mk]) s2

/-- The member function `displayPlannerData` (lines 66-103). -/
def displayPlannerData (ompl : OMPLInterface E K C Req Res BReq BRes)
    (kin : KinematicStateOps K G L) (link_name : String) (s : Service E K) :
    Except Fault (Service E K) :=
  match ompl.getLastPlanningConfiguration s.ompl_interface_ with
  | none => Except.ok s
  | some pc =>
    let (scene, s1) := getPlanningScene s
    let kstate := scene.getCurrentState
    match markerLoop kin pc link_name 0 pc.states kstate [] s1 with
    | Except.error f => Except.error f
    | Except.ok (arr, s2) => Except.ok (publish arr s2)

/-! ## computePlan and computeBenchmark -/

/-- The member function `computePlan` (lines 58-64): the returned flag, the response as left
in `res`, and the service afterwards. -/
def computePlan (ompl : OMPLInterface E K C Req Res BReq BRes)
    (kin : KinematicStateOps K G L) (req : Req) (res : Res) (s : Service E K) :
    Except Fault (Bool × Res × Service E K) :=
  let s1 := rosInfo "Received new planning request..." s
  let (scene, s2) := getPlanningScene s1
  let (result, res1, e1) := ompl.solve s2.ompl_interface_ scene req res
  let s3 : Service E K := { s2 with ompl_interface_ := e1 }
  match displayPlannerData ompl kin "r_wrist_roll_link" s3 with
  | Except.error f => Except.error f
  | Except.ok s4 => Except.ok (result, res1, s4)

/-- The member function `computeBenchmark` (lines 105-109). -/
def computeBenchmark (ompl : OMPLInterface E K C Req Res BReq BRes)
    (req : BReq) (res : BRes) (s : Service E K) : Bool × BRes × Service E K :=
  let s1 := rosInfo "Received new benchmark request..." s
  let (scene, s2) := getPlanningScene s1
  let (result, res1, e1) := ompl.benchmark s2.ompl_interface_ scene req res
  (result, res1, { s2 with ompl_interface_ := e1 })

/-! ## main -/

/-- What the process does to the outside, in order. -/
inductive Effect where
  | rosInit (node : String)
  | spinnerStart (threads : Nat)
  | createTransformListener
  | createPlanningSceneMonitor (robot_description : String)
  | startWorldGeometryMonitor
  | startSceneMonitor
  | startStateMonitor
  | constructOMPLPlannerService
  | advertiseService (service : String)
  | advertise (topic : String) (queue : Nat)
  | printStatus
  | info (msg : String)
  | error (msg : String)
  | waitForShutdown
deriving DecidableEq

/-- The constructor of `OMPLPlannerService` (lines 51-56). -/
def constructService : List Effect :=
  [ Effect.constructOMPLPlannerService
  , Effect.advertiseService PLANNER_SERVICE_NAME
  , Effect.advertiseService BENCHMARK_SERVICE_NAME
  , Effect.advertise "visualization_marker_array" 5 ]

/-- The member function `status` (lines 111-115). -/
def status : List Effect :=
  [ Effect.printStatus, Effect.info "Responding to planning and bechmark requests" ]

/-- The function `main` (lines 128-151) as a function of what
`psm.getPlanningScene()->isConfigured()` answers: the effects in order, and the value returned
once the process is shut down. -/
def main (isConfigured : Bool) : List Effect × Int :=
  let start :=
    [ Effect.rosInit PLANNER_NODE_NAME
    , Effect.spinnerStart 1
    , Effect.createTransformListener
    , Effect.createPlanningSceneMonitor ROBOT_DESCRIPTION ]
  if isConfigured then
    (start ++ [ Effect.startWorldGeometryMonitor, Effect.startSceneMonitor,
                Effect.startStateMonitor ]
      ++ constructService ++ status ++ [ Effect.waitForShutdown ], 0)
  else
    (start ++ [ Effect.error "Planning scene not configured" ], 0)

/-! ## Vocabulary of the statements -/

/-- Every state of `rest` resolves when the loop copies them one after the other into the working
state `kstate`: the joint group and the link are found at each of them. -/
def allResolve (kin : KinematicStateOps K G L) (pc : PlanningConfiguration K C)
    (link_name : String) : K → List C → Bool
  | _, [] => true
  | kstate, st :: rest =>
    match resolveLink kin pc link_name kstate st with
    | Except.error _ => false
    | Except.ok (kstate2, _) => allResolve kin pc link_name kstate2 rest

/-- The working kinematic state after the loop has gone through `done`, starting from `kstate`
(it stays where it is at a state that does not resolve). -/
def workingState (kin : KinematicStateOps K G L) (pc : PlanningConfiguration K C)
    (link_name : String) : K → List C → K
  | kstate, [] => kstate
  | kstate, st :: rest =>
    match resolveLink kin pc link_name kstate st with
    | Except.error _ => kstate
    | Except.ok (kstate2, _) => workingState kin pc link_name kstate2 rest

/-- The engine retains no planning configuration, or every state of the retained one resolves
from `kstate` on. -/
def recordResolves (ompl : OMPLInterface E K C Req Res BReq BRes)
    (kin : KinematicStateOps K G L) (link_name : String) (e : E) (kstate : K) : Bool :=
  match ompl.getLastPlanningConfiguration e with
  | none => true
  | some pc => allResolve kin pc link_name kstate pc.states

/-- The position of the link for one explored state, in the operations of the kinematic state:
the state is copied into `kstate`, the joint group is looked up and its link transforms are
updated, the link is looked up and the translation of its global transform is read. Nothing when
the group or the link is not found. -/
def linkPosition (kin : KinematicStateOps K G L) (pc : PlanningConfiguration K C)
    (link_name : String) (kstate : K) (st : C) : Option Vector3 :=
  match kin.getJointStateGroup (pc.copyToKinematicState kstate st) pc.getJointModelGroupName with
  | none => none
  | some g =>
    match kin.getLinkState
        (kin.updateLinkTransforms (pc.copyToKinematicState kstate st) g) link_name with
    | none => none
    | some ls => some (kin.getGlobalLinkTransformTranslation ls)

/-- The positions of the link for the explored states of a record taken in order, in the
operations of the kinematic state: each state is copied into the kinematic state left by the one
before it (`kstate` for the first), the link transforms of the joint group are updated, and the
translation of the link is read. Nothing when the group or the link is not found at some state,
so a value says that every state of the record is resolvable. -/
def linkPositions (kin : KinematicStateOps K G L) (pc : PlanningConfiguration K C)
    (link_name : String) : K → List C → Option (List Vector3)
  | _, [] => some []
  | kstate, st :: rest =>
    match kin.getJointStateGroup (pc.copyToKinematicState kstate st)
        pc.getJointModelGroupName with
    | none => none
    | some g =>
      match kin.getLinkState
          (kin.updateLinkTransforms (pc.copyToKinematicState kstate st) g) link_name with
      | none => none
      | some ls =>
        match linkPositions kin pc link_name
            (kin.updateLinkTransforms (pc.copyToKinematicState kstate st) g) rest with
        | none => none
        | some ps => some (kin.getGlobalLinkTransformTranslation ls :: ps)

/-- The value and the engine state that `solve` returns inside `computePlan` called on `s`. -/
def solved (ompl : OMPLInterface E K C Req Res BReq BRes) (req : Req) (res : Res)
    (s : Service E K) : Bool × Res × E :=
  ompl.solve s.ompl_interface_ (s.psm_ s.sceneReads) req res

/-- The service inside `computePlan` called on `s`, once `solve` has returned and before
`displayPlannerData` is entered. -/
def afterSolve (ompl : OMPLInterface E K C Req Res BReq BRes) (req : Req) (res : Res)
    (s : Service E K) : Service E K :=
  { s with
    ompl_interface_ := (solved ompl req res s).2.2
    sceneReads := s.sceneReads + 1
    rosout := s.rosout ++ ["Received new planning request..."] }

/-- Marker `m` is what iteration `k` builds, in a loop entered with the service `s`, the index
`i` and the working state `kstate` over the states `states`. -/
def IsMarkerOf (kin : KinematicStateOps K G L) (pc : PlanningConfiguration K C)
    (link_name : String) (s : Service E K) (i : Nat) (kstate : K) (states : List C)
    (k : Nat) (m : Marker) : Prop :=
  ∃ (st : C) (kstate2 : K) (pos : Vector3),
    states[k]? = some st ∧
    resolveLink kin pc link_name (workingState kin pc link_name kstate (states.take k)) st
      = Except.ok (kstate2, pos) ∧
    m = makeMarker (i + k) pos (s.clock (s.clockReads + k))
          (s.psm_ (s.sceneReads + k)).getPlanningFrame

/-- The arrays published once a call has returned; nothing when it did not return. -/
def publishedAfter (r : Except Fault (Service E K)) : Option (List MarkerArray) :=
  match r with
  | Except.error _ => none
  | Except.ok s => some s.pub_markers_

/-- What `computePlan` hands back to its caller: the flag and the response. -/
def returned (r : Except Fault (Bool × Res × Service E K)) : Option (Bool × Res) :=
  match r with
  | Except.error _ => none
  | Except.ok (b, res, _) => some (b, res)

/-- The arrays published once `computePlan` has returned. -/
def publishedByPlan (r : Except Fault (Bool × Res × Service E K)) : Option (List MarkerArray) :=
  match r with
  | Except.error _ => none
  | Except.ok (_, _, s) => some s.pub_markers_

/-! ## A one-joint robot on which the definitions are evaluated -/

/-- Kinematic state of the one-joint robot: the joint value and the cached position of its
only link along x. -/
structure ToyState where
  joint : Int
  wrist : Int
deriving DecidableEq

/-- Kinematic state operations of the one-joint robot whose model has the links `links` and the
single group `arm`. -/
def toyKin (links : List String) : KinematicStateOps ToyState Unit Int :=
  { getJointStateGroup := fun _ name => if name = "arm" then some () else none
    updateLinkTransforms := fun k _ => { k with wrist := k.joint }
    getLinkState := fun k name => if name ∈ links then some k.wrist else none
    getGlobalLinkTransformTranslation := fun l => { x := l, y := 0, z := 0 } }

/-- Kinematic state operations of a one-joint robot whose kinematic state gives the link state of
a link only while the link is no further than `reach` along x. -/
def toyKinReach (links : List String) (reach : Int) : KinematicStateOps ToyState Unit Int :=
  { toyKin links with
    getLinkState := fun k name =>
      if name ∈ links ∧ k.wrist ≤ reach then some k.wrist else none }

/-- Planning configuration of the one-joint robot: a state is a joint value, or a joint
displacement when the state space is `relative`. -/
def toyConfiguration (relative : Bool) (states : List Int) : PlanningConfiguration ToyState Int :=
  { states := states
    getJointModelGroupName := "arm"
    copyToKinematicState := fun k st =>
      { k with joint := if relative then k.joint + st else st } }

/-- An engine for the one-joint robot. A request says whether the search succeeds and which states
it explores, if it keeps any; the response is the number of way points. -/
def toyEngine (relative : Bool) :
    OMPLInterface (Option (List Int)) ToyState Int (Bool × Option (List Int)) Nat Bool Nat :=
  { solve := fun _ _ req _ => (req.1, if req.1 then 2 else 0, req.2)
    benchmark := fun e _ req _ => (req, 1, e)
    getLastPlanningConfiguration := fun e => e.map (toyConfiguration relative) }

/-- A service for the one-joint robot. The clock advances at each read and the planning frame
of the scene changes from the third read of the scene on. -/
def toyService (record : Option (List Int)) : Service (Option (List Int)) ToyState :=
  { ompl_interface_ := record
    psm_ := fun n =>
      { isConfigured := true
        getCurrentState := { joint := 0, wrist := 0 }
        getPlanningFrame := if n < 2 then "odom_combined" else "map" }
    sceneReads := 0
    clock := fun n => 1000 + n
    clockReads := 0
    pub_markers_ := []
    rosout := [] }

/-- The service of the one-joint robot at a standstill: the clock returns the same value at each
read and the planning frame of the scene never changes. -/
def stillService (record : Option (List Int)) : Service (Option (List Int)) ToyState :=
  { toyService record with
    psm_ := fun _ =>
      { isConfigured := true
        getCurrentState := { joint := 0, wrist := 0 }
        getPlanningFrame := "odom_combined" }
    clock := fun _ => 1000 }

/-! ## The loop -/

theorem markerLoop_spec (kin : KinematicStateOps K G L) (pc : PlanningConfiguration K C)
    (link_name : String) :
    ∀ (rest : List C) (i : Nat) (kstate : K) (arr : MarkerArray) (s : Service E K),
      allResolve kin pc link_name kstate rest = true →
      ∃ ms : MarkerArray,
        markerLoop kin pc link_name i rest kstate arr s
          = Except.ok (arr ++ ms,
              { s with sceneReads := s.sceneReads + rest.length
                       clockReads := s.clockReads + rest.length }) ∧
        ms.length = rest.length ∧
        ∀ k, k < rest.length →
          ∃ m, ms[k]? = some m ∧ IsMarkerOf kin pc link_name s i kstate rest k m := by
  intro rest
  induction rest with
  | nil =>
    intro i kstate arr s _
    exact ⟨[], by simp [markerLoop], rfl, fun k hk => absurd hk (by simp)⟩
  | cons st rest ih =>
    intro i kstate arr s h
    cases hr : resolveLink kin pc link_name kstate st with
    | error f => simp [allResolve, hr] at h
    | ok p =>
      obtain ⟨kstate2, pos⟩ := p
      simp only [allResolve, hr] at h
      obtain ⟨ms, hloop, hlen, hms⟩ :=
        ih (i + 1) kstate2
          (arr ++ [makeMarker i pos (s.clock s.clockReads) (s.psm_ s.sceneReads).getPlanningFrame])
          { s with sceneReads := s.sceneReads + 1, clockReads := s.clockReads + 1 } h
      refine ⟨makeMarker i pos (s.clock s.clockReads) (s.psm_ s.sceneReads).getPlanningFrame :: ms,
        ?_, ?_, ?_⟩
      · simp only [markerLoop, hr, timeNow, getPlanningScene]
        rw [hloop]
        simp [Nat.add_assoc, Nat.add_comm 1]
      · simp [hlen]
      · intro k hk
        cases k with
        | zero =>
          exact ⟨_, by simp, st, kstate2, pos, by simp, by simpa [workingState] using hr, rfl⟩
        | succ k =>
          obtain ⟨m, hm, st2, k3, pos2, hst, hres, hmk⟩ := hms k (by simpa using hk)
          refine ⟨m, by simpa using hm, st2, k3, pos2, by simpa using hst, ?_, ?_⟩
          · simpa [workingState, hr] using hres
          · rw [hmk]
            simp [Nat.add_assoc, Nat.add_comm 1]

/-- When the kinematic state finds the joint group and the link whatever the joint values are,
every state resolves. -/
theorem allResolve_of_model (kin : KinematicStateOps K G L) (pc : PlanningConfiguration K C)
    (link_name : String)
    (hgroup : ∀ k, (kin.getJointStateGroup k pc.getJointModelGroupName).isSome = true)
    (hlink : ∀ k, (kin.getLinkState k link_name).isSome = true) :
    ∀ (rest : List C) (kstate : K), allResolve kin pc link_name kstate rest = true := by
  intro rest
  induction rest with
  | nil => intro kstate; rfl
  | cons st rest ih =>
    intro kstate
    obtain ⟨g, hg⟩ := Option.isSome_iff_exists.mp (hgroup (pc.copyToKinematicState kstate st))
    obtain ⟨ls, hls⟩ := Option.isSome_iff_exists.mp
      (hlink (kin.updateLinkTransforms (pc.copyToKinematicState kstate st) g))
    simp only [allResolve, resolveLink, hg, hls]
    exact ih _

theorem displayPlannerData_none (ompl : OMPLInterface E K C Req Res BReq BRes)
    (kin : KinematicStateOps K G L) (link_name : String) (s : Service E K)
    (hpc : ompl.getLastPlanningConfiguration s.ompl_interface_ = none) :
    displayPlannerData ompl kin link_name s = Except.ok s := by
  simp [displayPlannerData, hpc]

theorem displayPlannerData_spec (ompl : OMPLInterface E K C Req Res BReq BRes)
    (kin : KinematicStateOps K G L) (link_name : String) (s : Service E K)
    (pc : PlanningConfiguration K C)
    (hpc : ompl.getLastPlanningConfiguration s.ompl_interface_ = some pc)
    (hres : allResolve kin pc link_name (s.psm_ s.sceneReads).getCurrentState pc.states = true) :
    ∃ arr : MarkerArray,
      displayPlannerData ompl kin link_name s
        = Except.ok { s with sceneReads := s.sceneReads + 1 + pc.states.length
                             clockReads := s.clockReads + pc.states.length
                             pub_markers_ := s.pub_markers_ ++ [arr] } ∧
      arr.length = pc.states.length ∧
      ∀ k, k < pc.states.length →
        ∃ m, arr[k]? = some m ∧
          IsMarkerOf kin pc link_name (getPlanningScene s).2 0
            (s.psm_ s.sceneReads).getCurrentState pc.states k m := by
  obtain ⟨ms, hloop, hlen, hms⟩ :=
    markerLoop_spec kin pc link_name pc.states 0 (s.psm_ s.sceneReads).getCurrentState []
      (getPlanningScene s).2 hres
  refine ⟨ms, ?_, hlen, hms⟩
  simp only [getPlanningScene] at hloop
  simp only [displayPlannerData, hpc, getPlanningScene, hloop]
  simp [publish]

theorem computePlan_eq (ompl : OMPLInterface E K C Req Res BReq BRes)
    (kin : KinematicStateOps K G L) (req : Req) (res : Res) (s : Service E K) :
    computePlan ompl kin req res s =
      match displayPlannerData ompl kin "r_wrist_roll_link" (afterSolve ompl req res s) with
      | Except.error f => Except.error f
      | Except.ok s4 =>
        Except.ok ((solved ompl req res s).1, (solved ompl req res s).2.1, s4) := rfl

theorem toInt32_of_lt (n : Nat) (h : n < 2147483648) : toInt32 n = (n : Int) := by
  have hmod : n % 4294967296 = n := Nat.mod_eq_of_lt (by omega)
  simp [toInt32, hmod, h]

/-- The positions computed through the operations of the kinematic state are the ones the loop
reads: when `linkPositions` has a value every state resolves in the loop, and the position read
at state `k` is the `k`-th of them. -/
theorem linkPositions_spec (kin : KinematicStateOps K G L) (pc : PlanningConfiguration K C)
    (link_name : String) :
    ∀ (states : List C) (kstate : K) (ps : List Vector3),
      linkPositions kin pc link_name kstate states = some ps →
      allResolve kin pc link_name kstate states = true ∧
      ∀ (k : Nat) (st : C) (kstate2 : K) (pos : Vector3),
        states[k]? = some st →
        resolveLink kin pc link_name
          (workingState kin pc link_name kstate (states.take k)) st
          = Except.ok (kstate2, pos) →
        ps[k]? = some pos := by
  intro states
  induction states with
  | nil =>
    intro kstate ps _
    exact ⟨rfl, fun k st kstate2 pos hst _ => by simp at hst⟩
  | cons st0 rest ih =>
    intro kstate ps h
    cases hg : kin.getJointStateGroup (pc.copyToKinematicState kstate st0)
        pc.getJointModelGroupName with
    | none => simp [linkPositions, hg] at h
    | some g =>
      cases hls : kin.getLinkState
          (kin.updateLinkTransforms (pc.copyToKinematicState kstate st0) g) link_name with
      | none => simp [linkPositions, hg, hls] at h
      | some ls =>
        cases hrest : linkPositions kin pc link_name
            (kin.updateLinkTransforms (pc.copyToKinematicState kstate st0) g) rest with
        | none => simp [linkPositions, hg, hls, hrest] at h
        | some ps2 =>
          simp only [linkPositions, hg, hls, hrest, Option.some.injEq] at h
          have hr : resolveLink kin pc link_name kstate st0
              = Except.ok (kin.updateLinkTransforms (pc.copyToKinematicState kstate st0) g,
                  kin.getGlobalLinkTransformTranslation ls) := by
            simp [resolveLink, hg, hls]
          obtain ⟨hall, hpos⟩ := ih _ ps2 hrest
          refine ⟨by simpa [allResolve, hr] using hall, ?_⟩
          intro k st kstate2 pos hst hres
          rw [← h]
          cases k with
          | zero =>
            simp only [List.take_zero, workingState] at hres
            simp only [List.getElem?_cons_zero, Option.some.injEq] at hst
            rw [← hst, hr] at hres
            simp only [Except.ok.injEq, Prod.mk.injEq] at hres
            simp [hres.2]
          | succ k =>
            simp only [List.take_succ_cons, workingState, hr] at hres
            simp only [List.getElem?_cons_succ] at hst
            simpa using hpos k st kstate2 pos hst hres

/-! ## C1 -/

/-- Outside the null dereference `computePlan` passes the result of `solve` through. Whenever it
returns, the flag and the response it hands back are exactly the flag `solve` returned and the
response `solve` filled in; and it does return them whenever the engine retains no planning
configuration or every state of the retained one resolves for the link. -/
theorem computePlan_returns_solve_result (ompl : OMPLInterface E K C Req Res BReq BRes)
    (kin : KinematicStateOps K G L) (req : Req) (res : Res) (s : Service E K) :
    (∀ b r s2, computePlan ompl kin req res s = Except.ok (b, r, s2) →
        b = (solved ompl req res s).1 ∧ r = (solved ompl req res s).2.1) ∧
    (recordResolves ompl kin "r_wrist_roll_link" (solved ompl req res s).2.2
        (s.psm_ (s.sceneReads + 1)).getCurrentState = true →
      returned (computePlan ompl kin req res s)
        = some ((solved ompl req res s).1, (solved ompl req res s).2.1)) := by
  constructor
  · intro b r s2 h
    rw [computePlan_eq] at h
    cases hd : displayPlannerData ompl kin "r_wrist_roll_link" (afterSolve ompl req res s) with
    | error f => simp [hd] at h
    | ok s4 =>
      simp only [hd, Except.ok.injEq, Prod.mk.injEq] at h
      exact ⟨h.1.symm, h.2.1.symm⟩
  · intro h
    rw [computePlan_eq]
    unfold recordResolves at h
    cases hpc : ompl.getLastPlanningConfiguration (solved ompl req res s).2.2 with
    | none =>
      rw [displayPlannerData_none ompl kin _ (afterSolve ompl req res s) hpc]
      rfl
    | some pc =>
      rw [hpc] at h
      obtain ⟨arr, hd, _⟩ :=
        displayPlannerData_spec ompl kin "r_wrist_roll_link" (afterSolve ompl req res s) pc hpc h
      rw [hd]
      rfl

/-- C1, the code at the failing input. On a robot whose model has no link `r_wrist_roll_link`,
`solve` returns the flag `true` and the response `2` and keeps one explored state; `computePlan`
then hands nothing back: `displayPlannerData` dereferences the null pointer that the link lookup
of line 83 returns, and `return result` is never reached. The claim has `computePlan` return
`true` with the response there. -/
theorem computePlan_unresolvable_link_returns_nothing :
    (solved (toyEngine false) (true, some [3]) 0 (toyService none)).1 = true ∧
    (solved (toyEngine false) (true, some [3]) 0 (toyService none)).2.1 = 2 ∧
    computePlan (toyEngine false) (toyKin []) (true, some [3]) 0 (toyService none)
      = Except.error Fault.nullPointerDereference :=
  ⟨rfl, rfl, rfl⟩

/-! ## C2 -/

/-- C2, the code at the failing input. The link state of `r_wrist_roll_link` is found for the
explored state 3 and not for the explored state 40. With the record `[3]` one marker, of id 0 and
position (3, 0, 0), is published. With the record `[3, 40]` the state 40 is not skipped: the call
ends in the dereference of the null link state, nothing is published and the marker of the
resolvable state 3 is lost. The same happens at every state when the model has no such link. The
claim has a batch with the marker of state 3 published. -/
theorem displayPlannerData_unresolvable_state_loses_batch :
    linkPosition (toyKinReach ["r_wrist_roll_link"] 10) (toyConfiguration false [3, 40])
        "r_wrist_roll_link" { joint := 0, wrist := 0 } 3 = some { x := 3, y := 0, z := 0 } ∧
    linkPosition (toyKinReach ["r_wrist_roll_link"] 10) (toyConfiguration false [3, 40])
        "r_wrist_roll_link" { joint := 0, wrist := 0 } 40 = none ∧
    (publishedAfter (displayPlannerData (toyEngine false) (toyKinReach ["r_wrist_roll_link"] 10)
        "r_wrist_roll_link" (toyService (some [3])))).map
      (List.map (List.map (fun m => (m.id, m.pose.position))))
      = some [[(0, { x := 3, y := 0, z := 0 })]] ∧
    displayPlannerData (toyEngine false) (toyKinReach ["r_wrist_roll_link"] 10)
        "r_wrist_roll_link" (toyService (some [3, 40]))
      = Except.error Fault.nullPointerDereference ∧
    publishedAfter (displayPlannerData (toyEngine false) (toyKinReach ["r_wrist_roll_link"] 10)
        "r_wrist_roll_link" (toyService (some [3, 40]))) = none ∧
    displayPlannerData (toyEngine false) (toyKin ["base_link"]) "r_wrist_roll_link"
        (toyService (some [3, 4])) = Except.error Fault.nullPointerDereference :=
  ⟨by decide, by decide, by decide, rfl, rfl, rfl⟩

/-! ## C3 -/

/-- C3, as amended. For every record of N ≤ 2^31 states that are all resolvable for the link,
with `ps` the positions of the link resolved from them in order, `displayPlannerData` publishes
one batch of exactly N markers in which, for every `k < N`, the `k`-th marker has id `k`, its
position is the `k`-th of `ps`, and it is a sphere of scale 0.035 on the three axes, of colour
(1, 0, 0, 1) and of lifetime 10, which is positive. -/
theorem displayPlannerData_publishes_markers (ompl : OMPLInterface E K C Req Res BReq BRes)
    (kin : KinematicStateOps K G L) (link_name : String) (s : Service E K)
    (pc : PlanningConfiguration K C) (ps : List Vector3)
    (hpc : ompl.getLastPlanningConfiguration s.ompl_interface_ = some pc)
    (hN : pc.states.length ≤ 2147483648)
    (hres : linkPositions kin pc link_name (s.psm_ s.sceneReads).getCurrentState pc.states
      = some ps) :
    ∃ arr : MarkerArray,
      publishedAfter (displayPlannerData ompl kin link_name s) = some (s.pub_markers_ ++ [arr]) ∧
      arr.length = pc.states.length ∧
      ∀ k : Nat, k < pc.states.length →
        ∃ m : Marker,
          arr[k]? = some m ∧
          m.id = (k : Int) ∧
          ps[k]? = some m.pose.position ∧
          m.type = MarkerType.SPHERE ∧
          m.scale = { x := 35 / 1000, y := 35 / 1000, z := 35 / 1000 } ∧
          m.color = { r := 1, g := 0, b := 0, a := 1 } ∧
          m.lifetime = 10 ∧ 0 < m.lifetime := by
  obtain ⟨hall, hpos⟩ := linkPositions_spec kin pc link_name _ _ ps hres
  obtain ⟨arr, hd, hlen, hms⟩ := displayPlannerData_spec ompl kin link_name s pc hpc hall
  refine ⟨arr, by rw [hd]; rfl, hlen, ?_⟩
  intro k hk
  obtain ⟨m, hm, st, k2, pos, hst, hr, hmk⟩ := hms k hk
  refine ⟨m, hm, ?_, ?_, ?_, ?_, ?_, ?_, ?_⟩
  · rw [hmk]
    simp only [makeMarker, Nat.zero_add]
    exact toInt32_of_lt k (by omega)
  · rw [hmk]
    exact hpos k st k2 pos hst hr
  · rw [hmk]; rfl
  · rw [hmk]; rfl
  · rw [hmk]; rfl
  · rw [hmk]; rfl
  · rw [hmk]; simp [makeMarker]

/-- C3 at the one-joint robot: the scenario of three explored states, all resolvable, whose
positions are (3, 0, 0), (4, 0, 0) and (5, 0, 0). -/
theorem displayPlannerData_publishes_markers_witness :
    ∃ arr : MarkerArray,
      publishedAfter (displayPlannerData (toyEngine false) (toyKin ["r_wrist_roll_link"])
        "r_wrist_roll_link" (toyService (some [3, 4, 5]))) = some ([] ++ [arr]) ∧
      arr.length = 3 ∧
      ∀ k : Nat, k < 3 →
        ∃ m : Marker,
          arr[k]? = some m ∧
          m.id = (k : Int) ∧
          ([{ x := 3, y := 0, z := 0 }, { x := 4, y := 0, z := 0 },
            { x := 5, y := 0, z := 0 }] : List Vector3)[k]? = some m.pose.position ∧
          m.type = MarkerType.SPHERE ∧
          m.scale = { x := 35 / 1000, y := 35 / 1000, z := 35 / 1000 } ∧
          m.color = { r := 1, g := 0, b := 0, a := 1 } ∧
          m.lifetime = 10 ∧ 0 < m.lifetime :=
  displayPlannerData_publishes_markers (toyEngine false) (toyKin ["r_wrist_roll_link"])
    "r_wrist_roll_link" (toyService (some [3, 4, 5])) (toyConfiguration false [3, 4, 5])
    [{ x := 3, y := 0, z := 0 }, { x := 4, y := 0, z := 0 }, { x := 5, y := 0, z := 0 }]
    rfl (by decide) (by decide)

/-- On the one-joint robot every explored state resolves for a link of the model. -/
theorem toy_allResolve (links : List String) (link : String) (hl : link ∈ links)
    (states rest : List Int) (kstate : ToyState) :
    allResolve (toyKin links) (toyConfiguration false states) link kstate rest = true := by
  apply allResolve_of_model
  · intro k
    simp [toyKin, toyConfiguration]
  · intro k
    simp [toyKin, hl]

/-- On the one-joint robot the marker of index `k` carries the index converted to `int32`. -/
theorem toy_marker_id (states : List Int) (k : Nat) (hk : k < states.length) :
    ∃ (arr : MarkerArray) (m : Marker),
      publishedAfter (displayPlannerData (toyEngine false) (toyKin ["r_wrist_roll_link"])
        "r_wrist_roll_link" (toyService (some states))) = some [arr] ∧
      arr.length = states.length ∧ arr[k]? = some m ∧ m.id = toInt32 k := by
  obtain ⟨arr, hd, hlen, hms⟩ :=
    displayPlannerData_spec (toyEngine false) (toyKin ["r_wrist_roll_link"])
      "r_wrist_roll_link" (toyService (some states)) (toyConfiguration false states) rfl
      (toy_allResolve _ _ (by simp) _ _ _)
  obtain ⟨m, hm, st, k2, pos, _, _, hmk⟩ := hms k hk
  refine ⟨arr, m, by rw [hd]; rfl, hlen, hm, ?_⟩
  rw [hmk]
  simp [makeMarker]

/-- C3 as stated fails: with a record of 2^31 + 1 resolvable states, the marker of index 2^31
does not have the id 2^31: the `int32` id holds -2^31. -/
theorem marker_id_wraps_at_int32 :
    ∃ (arr : MarkerArray) (m : Marker),
      publishedAfter (displayPlannerData (toyEngine false) (toyKin ["r_wrist_roll_link"])
        "r_wrist_roll_link" (toyService (some (List.replicate 2147483649 0)))) = some [arr] ∧
      arr.length = 2147483649 ∧ arr[2147483648]? = some m ∧ m.id = -2147483648 := by
  obtain ⟨arr, m, h1, h2, h3, h4⟩ :=
    toy_marker_id (List.replicate 2147483649 0) 2147483648
      (by rw [List.length_replicate]; omega)
  refine ⟨arr, m, h1, by rw [h2, List.length_replicate], h3, ?_⟩
  rw [h4]
  decide

/-! ## C4 -/

/-- C4, as amended. When the engine retains no planning configuration after the solve,
`computePlan` publishes nothing and returns the flag and the response of `solve`; when it retains
one whose record has no state, `computePlan` publishes one array, which has no marker, and returns
the flag and the response of `solve` all the same. -/
theorem computePlan_without_states (ompl : OMPLInterface E K C Req Res BReq BRes)
    (kin : KinematicStateOps K G L) (req : Req) (res : Res) (s : Service E K) :
    (ompl.getLastPlanningConfiguration (solved ompl req res s).2.2 = none →
      returned (computePlan ompl kin req res s)
        = some ((solved ompl req res s).1, (solved ompl req res s).2.1) ∧
      publishedByPlan (computePlan ompl kin req res s) = some s.pub_markers_) ∧
    (∀ pc : PlanningConfiguration K C,
      ompl.getLastPlanningConfiguration (solved ompl req res s).2.2 = some pc →
      pc.states = [] →
      returned (computePlan ompl kin req res s)
        = some ((solved ompl req res s).1, (solved ompl req res s).2.1) ∧
      publishedByPlan (computePlan ompl kin req res s) = some (s.pub_markers_ ++ [[]])) := by
  constructor
  · intro hpc
    rw [computePlan_eq, displayPlannerData_none ompl kin _ (afterSolve ompl req res s) hpc]
    exact ⟨rfl, rfl⟩
  · intro pc hpc hst
    have hres : allResolve kin pc "r_wrist_roll_link"
        ((afterSolve ompl req res s).psm_ (afterSolve ompl req res s).sceneReads).getCurrentState
        pc.states = true := by
      rw [hst]; rfl
    obtain ⟨arr, hd, hlen, _⟩ :=
      displayPlannerData_spec ompl kin "r_wrist_roll_link" (afterSolve ompl req res s) pc hpc hres
    have harr : arr = [] := by
      apply List.eq_nil_of_length_eq_zero
      rw [hlen, hst]; rfl
    rw [computePlan_eq, hd, harr]
    exact ⟨rfl, rfl⟩

/-- C4 at the one-joint robot: a search that keeps no record, and one that keeps a record
without states. -/
theorem computePlan_without_states_witness :
    (returned (computePlan (toyEngine false) (toyKin ["r_wrist_roll_link"])
        (true, none) 0 (toyService none)) = some (true, 2) ∧
      publishedByPlan (computePlan (toyEngine false) (toyKin ["r_wrist_roll_link"])
        (true, none) 0 (toyService none)) = some []) ∧
    (returned (computePlan (toyEngine false) (toyKin ["r_wrist_roll_link"])
        (true, some []) 0 (toyService none)) = some (true, 2) ∧
      publishedByPlan (computePlan (toyEngine false) (toyKin ["r_wrist_roll_link"])
        (true, some []) 0 (toyService none)) = some ([] ++ [[]])) :=
  ⟨(computePlan_without_states (toyEngine false) (toyKin ["r_wrist_roll_link"])
      (true, none) 0 (toyService none)).1 rfl,
   (computePlan_without_states (toyEngine false) (toyKin ["r_wrist_roll_link"])
      (true, some []) 0 (toyService none)).2 (toyConfiguration false []) rfl rfl⟩

/-- C4 as stated fails: the search succeeds and keeps a record without states, nothing was
published before, and after `computePlan` the publisher has been called once, with an array
without markers. -/
theorem computePlan_empty_record_publishes_empty_array :
    (toyService none).pub_markers_ = [] ∧
    returned (computePlan (toyEngine false) (toyKin ["r_wrist_roll_link"])
        (true, some []) 0 (toyService none)) = some (true, 2) ∧
    publishedByPlan (computePlan (toyEngine false) (toyKin ["r_wrist_roll_link"])
        (true, some []) 0 (toyService none)) = some [[]] := by
  decide

/-! ## C5 -/

/-- C5. For every benchmark request and every outcome of the engine's benchmark call,
`computeBenchmark` publishes nothing: the published arrays are the same after the call as
before it. -/
theorem computeBenchmark_publishes_nothing (ompl : OMPLInterface E K C Req Res BReq BRes)
    (req : BReq) (res : BRes) (s : Service E K) :
    (computeBenchmark ompl req res s).2.2.pub_markers_ = s.pub_markers_ := rfl

/-! ## C6 -/

/-- C6. For every request whose solve returns `false` while the engine retains a record of
N states that all resolve for the link, `computePlan` returns `false` with the response of
`solve` and publishes one batch of exactly N markers; this holds for every N, so for N ≥ 1. -/
theorem computePlan_failure_still_publishes (ompl : OMPLInterface E K C Req Res BReq BRes)
    (kin : KinematicStateOps K G L) (req : Req) (res : Res) (s : Service E K)
    (pc : PlanningConfiguration K C)
    (hflag : (solved ompl req res s).1 = false)
    (hpc : ompl.getLastPlanningConfiguration (solved ompl req res s).2.2 = some pc)
    (hres : allResolve kin pc "r_wrist_roll_link"
      (s.psm_ (s.sceneReads + 1)).getCurrentState pc.states = true) :
    returned (computePlan ompl kin req res s) = some (false, (solved ompl req res s).2.1) ∧
    ∃ arr : MarkerArray,
      publishedByPlan (computePlan ompl kin req res s) = some (s.pub_markers_ ++ [arr]) ∧
      arr.length = pc.states.length := by
  obtain ⟨arr, hd, hlen, _⟩ :=
    displayPlannerData_spec ompl kin "r_wrist_roll_link" (afterSolve ompl req res s) pc hpc hres
  rw [computePlan_eq, hd, hflag]
  exact ⟨rfl, arr, rfl, hlen⟩

/-- C6 at the one-joint robot: the scenario of a failed solve that retains two states. -/
theorem computePlan_failure_still_publishes_witness :
    returned (computePlan (toyEngine false) (toyKin ["r_wrist_roll_link"])
      (false, some [3, 4]) 0 (toyService none)) = some (false, 0) ∧
    ∃ arr : MarkerArray,
      publishedByPlan (computePlan (toyEngine false) (toyKin ["r_wrist_roll_link"])
        (false, some [3, 4]) 0 (toyService none)) = some ([] ++ [arr]) ∧
      arr.length = 2 :=
  computePlan_failure_still_publishes (toyEngine false) (toyKin ["r_wrist_roll_link"])
    (false, some [3, 4]) 0 (toyService none) (toyConfiguration false [3, 4])
    rfl rfl (by decide)

/-! ## C7 -/

/-- C7. When the planning scene is not configured, `main` constructs no `OMPLPlannerService`,
registers no service, starts no monitor, reports the error `Planning scene not configured`, does
not wait for requests and returns; the plan service and the benchmark service are registered
when the scene is configured, and only then. -/
theorem main_registers_only_when_configured :
    Effect.constructOMPLPlannerService ∉ (main false).1 ∧
    (∀ name, Effect.advertiseService name ∉ (main false).1) ∧
    Effect.startWorldGeometryMonitor ∉ (main false).1 ∧
    Effect.startSceneMonitor ∉ (main false).1 ∧
    Effect.startStateMonitor ∉ (main false).1 ∧
    (main false).1.getLast? = some (Effect.error "Planning scene not configured") ∧
    Effect.waitForShutdown ∉ (main false).1 ∧
    (main false).2 = 0 ∧
    (∀ b, Effect.advertiseService PLANNER_SERVICE_NAME ∈ (main b).1 ↔ b = true) ∧
    (∀ b, Effect.advertiseService BENCHMARK_SERVICE_NAME ∈ (main b).1 ↔ b = true) := by
  refine ⟨by decide, ?_, by decide, by decide, by decide, by decide, by decide, by decide, ?_, ?_⟩
  · intro name h
    simp [main] at h
  · intro b
    cases b <;> decide
  · intro b
    cases b <;> decide

/-! ## C8 -/

/-- C8, as amended. With the clock an oracle that may return a different value at each read,
`displayPlannerData` reads it once per marker: in the batch built from a record whose states all
resolve, the `k`-th marker carries the value of the `k`-th read of the clock made during the call;
so all markers of the batch carry the same timestamp when the clock returns the same value at
each of these reads. -/
theorem displayPlannerData_stamps (ompl : OMPLInterface E K C Req Res BReq BRes)
    (kin : KinematicStateOps K G L) (link_name : String) (s : Service E K)
    (pc : PlanningConfiguration K C)
    (hpc : ompl.getLastPlanningConfiguration s.ompl_interface_ = some pc)
    (hres : allResolve kin pc link_name (s.psm_ s.sceneReads).getCurrentState pc.states = true) :
    ∃ arr : MarkerArray,
      publishedAfter (displayPlannerData ompl kin link_name s) = some (s.pub_markers_ ++ [arr]) ∧
      arr.length = pc.states.length ∧
      (∀ (k : Nat) (m : Marker), arr[k]? = some m → m.header.stamp = s.clock (s.clockReads + k)) ∧
      ((∀ k, k < pc.states.length → s.clock (s.clockReads + k) = s.clock s.clockReads) →
        ∀ m1 ∈ arr, ∀ m2 ∈ arr, m1.header.stamp = m2.header.stamp) := by
  obtain ⟨arr, hd, hlen, hms⟩ := displayPlannerData_spec ompl kin link_name s pc hpc hres
  have hstamp : ∀ (k : Nat) (m : Marker), arr[k]? = some m → m.header.stamp = s.clock (s.clockReads + k) := by
    intro k m hm
    have hk : k < pc.states.length := by
      rw [← hlen]
      exact (List.getElem?_eq_some.mp hm).1
    obtain ⟨m2, hm2, st, k2, pos, _, _, hmk⟩ := hms k hk
    rw [hm] at hm2
    cases hm2
    rw [hmk]
    rfl
  refine ⟨arr, by rw [hd]; rfl, hlen, hstamp, ?_⟩
  intro hconst m1 h1 m2 h2
  obtain ⟨k1, hk1, e1⟩ := List.getElem_of_mem h1
  obtain ⟨k2, hk2, e2⟩ := List.getElem_of_mem h2
  have g1 : arr[k1]? = some m1 := by rw [List.getElem?_eq_getElem hk1, e1]
  have g2 : arr[k2]? = some m2 := by rw [List.getElem?_eq_getElem hk2, e2]
  rw [hstamp k1 m1 g1, hstamp k2 m2 g2, hconst k1 (hlen ▸ hk1), hconst k2 (hlen ▸ hk2)]

/-- C8 at the one-joint robot at a standstill: the clock returns 1000 at each read, and the two
markers carry the same timestamp. -/
theorem displayPlannerData_stamps_witness :
    ∃ arr : MarkerArray,
      publishedAfter (displayPlannerData (toyEngine false) (toyKin ["r_wrist_roll_link"])
        "r_wrist_roll_link" (stillService (some [3, 4]))) = some ([] ++ [arr]) ∧
      arr.length = 2 ∧
      (∀ (k : Nat) (m : Marker), arr[k]? = some m → m.header.stamp = 1000) ∧
      ∀ m1 ∈ arr, ∀ m2 ∈ arr, m1.header.stamp = m2.header.stamp := by
  obtain ⟨arr, h1, h2, h3, h4⟩ :=
    displayPlannerData_stamps (toyEngine false) (toyKin ["r_wrist_roll_link"])
      "r_wrist_roll_link" (stillService (some [3, 4])) (toyConfiguration false [3, 4])
      rfl (by decide)
  exact ⟨arr, h1, h2, h3, h4 (fun _ _ => rfl)⟩

/-- C8 as stated fails: with a clock that advances at each read, the two markers of one batch
carry the timestamps 1000 and 1001. -/
theorem stamps_differ_within_batch :
    (publishedAfter (displayPlannerData (toyEngine false) (toyKin ["r_wrist_roll_link"])
        "r_wrist_roll_link" (toyService (some [3, 4])))).map
      (List.map (List.map (fun m => m.header.stamp))) = some [[1000, 1001]] := by
  decide

/-! ## C9 -/

/-- C9, as amended. With the scene provider an oracle whose scene may differ between reads,
`displayPlannerData` reads the scene once for the current state and then once per marker: in the
batch built from a record whose states all resolve, the `k`-th marker carries the planning frame
of the scene handed out at the read made for it; so all markers of the batch carry the same frame
id when these reads hand out scenes with the same planning frame. -/
theorem displayPlannerData_frames (ompl : OMPLInterface E K C Req Res BReq BRes)
    (kin : KinematicStateOps K G L) (link_name : String) (s : Service E K)
    (pc : PlanningConfiguration K C)
    (hpc : ompl.getLastPlanningConfiguration s.ompl_interface_ = some pc)
    (hres : allResolve kin pc link_name (s.psm_ s.sceneReads).getCurrentState pc.states = true) :
    ∃ arr : MarkerArray,
      publishedAfter (displayPlannerData ompl kin link_name s) = some (s.pub_markers_ ++ [arr]) ∧
      arr.length = pc.states.length ∧
      (∀ (k : Nat) (m : Marker), arr[k]? = some m →
        m.header.frame_id = (s.psm_ (s.sceneReads + 1 + k)).getPlanningFrame) ∧
      ((∀ k, k < pc.states.length →
          (s.psm_ (s.sceneReads + 1 + k)).getPlanningFrame
            = (s.psm_ (s.sceneReads + 1)).getPlanningFrame) →
        ∀ m1 ∈ arr, ∀ m2 ∈ arr, m1.header.frame_id = m2.header.frame_id) := by
  obtain ⟨arr, hd, hlen, hms⟩ := displayPlannerData_spec ompl kin link_name s pc hpc hres
  have hframe : ∀ (k : Nat) (m : Marker), arr[k]? = some m →
      m.header.frame_id = (s.psm_ (s.sceneReads + 1 + k)).getPlanningFrame := by
    intro k m hm
    have hk : k < pc.states.length := by
      rw [← hlen]
      exact (List.getElem?_eq_some.mp hm).1
    obtain ⟨m2, hm2, st, k2, pos, _, _, hmk⟩ := hms k hk
    rw [hm] at hm2
    cases hm2
    rw [hmk]
    rfl
  refine ⟨arr, by rw [hd]; rfl, hlen, hframe, ?_⟩
  intro hconst m1 h1 m2 h2
  obtain ⟨k1, hk1, e1⟩ := List.getElem_of_mem h1
  obtain ⟨k2, hk2, e2⟩ := List.getElem_of_mem h2
  have g1 : arr[k1]? = some m1 := by rw [List.getElem?_eq_getElem hk1, e1]
  have g2 : arr[k2]? = some m2 := by rw [List.getElem?_eq_getElem hk2, e2]
  rw [hframe k1 m1 g1, hframe k2 m2 g2, hconst k1 (hlen ▸ hk1), hconst k2 (hlen ▸ hk2)]

/-- C9 at the one-joint robot at a standstill: every read of the scene gives the planning frame
`odom_combined`, and the two markers carry the same frame id. -/
theorem displayPlannerData_frames_witness :
    ∃ arr : MarkerArray,
      publishedAfter (displayPlannerData (toyEngine false) (toyKin ["r_wrist_roll_link"])
        "r_wrist_roll_link" (stillService (some [3, 4]))) = some ([] ++ [arr]) ∧
      arr.length = 2 ∧
      (∀ (k : Nat) (m : Marker), arr[k]? = some m → m.header.frame_id = "odom_combined") ∧
      ∀ m1 ∈ arr, ∀ m2 ∈ arr, m1.header.frame_id = m2.header.frame_id := by
  obtain ⟨arr, h1, h2, h3, h4⟩ :=
    displayPlannerData_frames (toyEngine false) (toyKin ["r_wrist_roll_link"])
      "r_wrist_roll_link" (stillService (some [3, 4])) (toyConfiguration false [3, 4])
      rfl (by decide)
  exact ⟨arr, h1, h2, h3, h4 (fun _ _ => rfl)⟩

/-- C9 as stated fails: with a scene whose planning frame changes between two reads, the two
markers of one batch carry the frame ids `odom_combined` and `map`. -/
theorem frames_differ_within_batch :
    (publishedAfter (displayPlannerData (toyEngine false) (toyKin ["r_wrist_roll_link"])
        "r_wrist_roll_link" (toyService (some [3, 4])))).map
      (List.map (List.map (fun m => m.header.frame_id))) = some [["odom_combined", "map"]] := by
  decide

/-! ## C10 -/

end OmplPlanner
